import Mathlib

set_option maxRecDepth 4096

/-!
Verification of the SailPoint IdentityNow enable-account action.

The development shallowly embeds the JavaScript source of the action
(`src/script.mjs`, which holds two variants of the handler object, and the
bundled `dist/index.js`).  Pure computations (URL construction, request-body
construction, response-to-result mapping, error classification) become Lean
functions; the effectful handlers (`invoke`'s response handling, the `error`
recovery handler, `halt`) become functions from their inputs plus explicit
response oracles to a trace of observable events (backoff waits, network
calls) and an outcome.  JavaScript `undefined`/absent values are modelled by
`Option`, and JavaScript truthiness of optional strings ("" and `undefined`
are falsy) by `optTruthy`.
-/

/-- Truthiness of a JavaScript string-or-undefined value: `undefined` and the
empty string are falsy, every other string is truthy. -/
def optTruthy : Option String → Bool
  | none => false
  | some s => !(s == "")

/-- The JavaScript expression `a || b` on two string-or-undefined values. -/
def jsOr (a b : Option String) : Option String :=
  if optTruthy a then a else b

/-- The JavaScript expression `a || d` where `d` is a (truthy) string
default: yields the value of `a` when truthy, else `d`. -/
def jsOrStr (a : Option String) (d : String) : String :=
  match a with
  | some s => if s == "" then d else s
  | none => d

/-- `pre` is a prefix of `s`; models JavaScript `s.startsWith(pre)` as used
at src/script.mjs line 31/208. -/
def strStartsWith (s pre : String) : Bool :=
  pre.data.isPrefixOf s.data

/-- `sub` occurs as a contiguous sublist of `s`. -/
def listInfix (sub : List Char) : List Char → Bool
  | [] => sub.isEmpty
  | c :: tl => sub.isPrefixOf (c :: tl) || listInfix sub tl

/-- `sub` occurs as a (case-sensitive) substring of `s`; models JavaScript
`s.includes(sub)` as used at src/script.mjs line 322. -/
def strContains (s sub : String) : Bool :=
  listInfix sub.data s.data

/-- Lower-cases an ASCII letter, leaves every other character unchanged. -/
def lowerChar (c : Char) : Char :=
  if 65 ≤ c.toNat && c.toNat ≤ 90 then Char.ofNat (c.toNat + 32) else c

/-- Case-insensitive substring containment (used only to state the spec's
"case-insensitive substring" wording, for comparison against the code). -/
def strContainsCI (s sub : String) : Bool :=
  listInfix (sub.data.map lowerChar) (s.data.map lowerChar)

/-! ## Percent-encoding (ECMAScript `encodeURIComponent`)

`enableAccount` (src/script.mjs lines 14-17 and 191-194, dist/index.js lines
171-174) calls the JavaScript builtin `encodeURIComponent(accountId)`.  The
builtin is modelled here following the ECMAScript specification: every
character outside the `uriUnescaped` set (ASCII letters, digits, and
`- _ . ! ~ * ' ( )`) is replaced by the uppercase-hex percent-encoding of
its UTF-8 bytes. -/

/-- The UTF-8 bytes of a Unicode code point, as natural numbers. -/
def utf8Bytes (c : Nat) : List Nat :=
  if c < 128 then [c]
  else if c < 2048 then [192 + c / 64, 128 + c % 64]
  else if c < 65536 then [224 + c / 4096, 128 + (c / 64) % 64, 128 + c % 64]
  else [240 + c / 262144, 128 + (c / 4096) % 64, 128 + (c / 64) % 64, 128 + c % 64]

/-- Uppercase hexadecimal digit character for a value below 16. -/
def hexDigitChar (n : Nat) : Char :=
  if n < 10 then Char.ofNat (48 + n) else Char.ofNat (55 + n)

/-- The three characters `%XY` percent-encoding one byte. -/
def percentByte (b : Nat) : List Char :=
  [Char.ofNat 37, hexDigitChar (b / 16), hexDigitChar (b % 16)]

/-- Membership in the ECMAScript `uriUnescaped` set (the characters that
`encodeURIComponent` leaves unencoded): ASCII alphanumerics and
`- _ . ! ~ * ' ( )` (code points 45, 95, 46, 33, 126, 42, 39, 40, 41). -/
def isUriUnescaped (c : Nat) : Bool :=
  (65 ≤ c && c ≤ 90) || (97 ≤ c && c ≤ 122) || (48 ≤ c && c ≤ 57) ||
  c == 45 || c == 95 || c == 46 || c == 33 || c == 126 || c == 42 ||
  c == 39 || c == 40 || c == 41

/-- Encoding of a single character: kept verbatim when in the unescaped set,
otherwise percent-encoded byte by byte. -/
def encodeChar (c : Char) : List Char :=
  if isUriUnescaped c.toNat then [c]
  else List.flatten ((utf8Bytes c.toNat).map percentByte)

/-- Character-list form of `encodeURIComponent`. -/
def encodeList : List Char → List Char
  | [] => []
  | c :: cs => encodeChar c ++ encodeList cs

/-- The ECMAScript builtin `encodeURIComponent`, on strings of Unicode
scalar values. -/
def encodeURIComponent (s : String) : String :=
  String.mk (encodeList s.data)

/-- The ECMAScript `uriReserved` character set
`; / ? : @ & = + $ ,` — the reserved characters that `encodeURI` keeps but
`encodeURIComponent` encodes. -/
def uriReserved : List Char :=
  [';', '/', '?', ':', '@', '&', '=', '+', '$', ',']

/-- The request URL built by `enableAccount` (src/script.mjs lines 16-17,
dist/index.js lines 173-174):
``baseUrl + "/v3/accounts/" + encodeURIComponent(accountId) + "/enable"``. -/
def enableUrl (baseUrl accountId : String) : String :=
  baseUrl ++ "/v3/accounts/" ++ encodeURIComponent accountId ++ "/enable"

/-! ## Request body and authorization header -/

/-- The JSON request body assembled by `enableAccount` (src/script.mjs lines
20-28): a field is `none` when the corresponding key is absent from the
object. -/
structure RequestBody where
  externalVerificationId : Option String
  forceProvisioning : Option Bool
deriving DecidableEq

/-- `enableAccount`'s body construction (src/script.mjs lines 20-28): starts
from `{}`, adds `externalVerificationId` only when that input is truthy, and
adds `forceProvisioning` only when that input is neither `undefined` nor
`null` (both modelled by `none`). -/
def buildRequestBody (evi : Option String) (fp : Option Bool) : RequestBody :=
  { externalVerificationId := if optTruthy evi then evi else none
    forceProvisioning := fp }

/-- Authorization-header normalization (src/script.mjs line 31/208):
`authToken.startsWith('Bearer ') ? authToken : `Bearer ${authToken}``. -/
def normalizeAuthHeader (authToken : String) : String :=
  if strStartsWith authToken "Bearer " then authToken else "Bearer " ++ authToken

/-- The header value carries the characters `Bearer ` as a prefix exactly
once (it starts with the prefix and the rest does not start with it again);
formalizes the claim's "exactly once, never doubled". -/
def bearerExactlyOnce (s : String) : Bool :=
  "Bearer ".data.isPrefixOf s.data && !("Bearer ".data.isPrefixOf (s.data.drop 7))

/-! ## Responses, outcomes and the invoke-side response handling -/

/-- The fields of a parsed JSON response body that the action reads; `none`
models an absent field. -/
structure JsonBody where
  id : Option String
  taskId : Option String
  message : Option String
  detailCode : Option String
  trackingId : Option String
deriving DecidableEq

/-- A response body: either `response.json()` succeeds with a `JsonBody`, or
it rejects and `response.text()` yields the raw text. -/
inductive ResponseBody where
  | json (b : JsonBody)
  | text (t : String)
deriving DecidableEq

/-- An HTTP response as the handlers observe it: the `ok` flag, the numeric
status, and the body. -/
structure Response where
  ok : Bool
  status : Nat
  body : ResponseBody
deriving DecidableEq

/-- A JavaScript `Error` as thrown by the action: a message, and the
`statusCode` property when one was attached (src/script.mjs lines 300-302). -/
structure JsError where
  message : String
  statusCode : Option Nat
deriving DecidableEq

/-- The success-result object returned by `invoke` and by the recovery
handler (src/script.mjs lines 269-275, 341-348, 372-379).  `none` in
`taskId` models an `undefined` value; `recoveryMethod` is `none` when the
key is absent (the `invoke` path). -/
structure EnableResult where
  accountId : String
  enabled : Bool
  taskId : Option String
  message : String
  enabledAt : String
  recoveryMethod : Option String
deriving DecidableEq

/-- Builds the success result from a parsed response body:
`taskId = responseData.id || responseData.taskId` and
`message = responseData.message || defaultMsg` (src/script.mjs lines
269-275 with `defaultMsg = "Account enable operation initiated"`, and the
two retry variants at lines 341-348 and 372-379). -/
def successResult (accountId : String) (b : JsonBody) (now : String)
    (defaultMsg : String) (recovery : Option String) : EnableResult :=
  { accountId := accountId
    enabled := true
    taskId := jsOr b.id b.taskId
    message := jsOrStr b.message defaultMsg
    enabledAt := now
    recoveryMethod := recovery }

/-- The error message built for a failing response (src/script.mjs lines
279-297): start from `"Failed to enable account: HTTP {status}"`; if the
body parses as JSON, a truthy `detailCode` yields
`"Failed to enable account: {detailCode} - {trackingId || ''}"`, else a
truthy `message` field yields `"Failed to enable account: {message}"`;
if the body is not JSON, a non-empty raw text yields
`"Failed to enable account: {text}"`. -/
def failureMessage (status : Nat) (body : ResponseBody) : String :=
  match body with
  | .json b =>
      if optTruthy b.detailCode then
        "Failed to enable account: " ++ b.detailCode.getD "" ++ " - " ++
          jsOrStr b.trackingId ""
      else if optTruthy b.message then
        "Failed to enable account: " ++ b.message.getD ""
      else
        "Failed to enable account: HTTP " ++ toString status
  | .text t =>
      if t == "" then "Failed to enable account: HTTP " ++ toString status
      else "Failed to enable account: " ++ t

/-- Outcome of a handler: a returned result, a thrown `Error`, or the
rejection raised by calling `.json()` on a success response whose body is
not JSON. -/
inductive HandlerOutcome where
  | ok (r : EnableResult)
  | thrown (e : JsError)
  | invalidSuccessBody
deriving DecidableEq

/-- `invoke`'s handling of the response to the enable request
(src/script.mjs lines 264-302): a success response is mapped through
`successResult` (no `recoveryMethod` key); a failing response throws an
`Error` with `failureMessage` and the numeric status attached. -/
def handleResponse (accountId now : String) (resp : Response) : HandlerOutcome :=
  if resp.ok then
    match resp.body with
    | .json b =>
        .ok (successResult accountId b now "Account enable operation initiated" none)
    | .text _ => .invalidSuccessBody
  else
    .thrown { message := failureMessage resp.status resp.body
              statusCode := some resp.status }

/-! ## The recovery (error) handler -/

/-- Observable events of a handler run: a backoff wait of the given number
of milliseconds, or one network POST to the enable endpoint. -/
inductive Event where
  | wait (ms : Nat)
  | enableCall
deriving DecidableEq

/-- Whether an event is a network call to the enable endpoint. -/
def isEnableCall : Event → Bool
  | .enableCall => true
  | .wait _ => false

/-- Number of enable-endpoint network calls in a trace. -/
def netCalls (evs : List Event) : Nat :=
  evs.countP isEnableCall

/-- The rate-limit branch guard of the recovery handler (src/script.mjs line
322): `statusCode === 429 || error.message.includes('429') ||
error.message.includes('rate limit')`. -/
def rateLimitCond (e : JsError) : Bool :=
  e.statusCode == some 429 || strContains e.message "429" ||
    strContains e.message "rate limit"

/-- The service-error branch guard of the recovery handler (src/script.mjs
line 353): `[502, 503, 504].includes(statusCode)`. -/
def serviceErrorCond (sc : Option Nat) : Bool :=
  sc == some 502 || sc == some 503 || sc == some 504

/-- The spec's wording of the rate-limit classification: statusCode 429, or
— when no explicit statusCode is available — a message containing "429" or
"rate limit" as a case-insensitive substring.  Stated from the claim for
comparison with the code's `rateLimitCond`. -/
def specRateLimitCond (e : JsError) : Bool :=
  e.statusCode == some 429 ||
    (e.statusCode == none &&
      (strContainsCI e.message "429" || strContainsCI e.message "rate limit"))

/-- The `Error` thrown at the end of the recovery handler (src/script.mjs
line 385): `"Unrecoverable error enabling account {accountId}:
{error.message}"`, a fresh `Error` with no `statusCode` property. -/
def unrecoverableError (accountId : String) (e : JsError) : JsError :=
  { message := "Unrecoverable error enabling account " ++ accountId ++ ": " ++ e.message
    statusCode := none }

/-- The recovery handler (src/script.mjs lines 311-386), second variant of
`script.mjs`.  `r1` is the response the network returns to the first POST
the handler issues (if any) and `r2` the response to the second (if any);
`rl` and `se` are the resolved `RATE_LIMIT_BACKOFF_MS` and
`SERVICE_ERROR_BACKOFF_MS` values.  The translation unrolls the two
sequential `if` statements: the rate-limit branch returns only when its
retry response is `ok`, otherwise control falls through to the
service-error check. -/
def errorHandler (accountId : String) (e : JsError) (rl se : Nat)
    (r1 r2 : Response) (now : String) : List Event × HandlerOutcome :=
  if rateLimitCond e then
    if r1.ok then
      match r1.body with
      | .json b =>
          ([.wait rl, .enableCall],
           .ok (successResult accountId b now
                "Account enable operation initiated after retry" (some "rate_limit_retry")))
      | .text _ => ([.wait rl, .enableCall], .invalidSuccessBody)
    else
      if serviceErrorCond e.statusCode then
        if r2.ok then
          match r2.body with
          | .json b =>
              ([.wait rl, .enableCall, .wait se, .enableCall],
               .ok (successResult accountId b now
                    "Account enable operation initiated after service recovery" (some "service_retry")))
          | .text _ =>
              ([.wait rl, .enableCall, .wait se, .enableCall], .invalidSuccessBody)
        else
          ([.wait rl, .enableCall, .wait se, .enableCall],
           .thrown (unrecoverableError accountId e))
      else
        ([.wait rl, .enableCall], .thrown (unrecoverableError accountId e))
  else
    if serviceErrorCond e.statusCode then
      if r1.ok then
        match r1.body with
        | .json b =>
            ([.wait se, .enableCall],
             .ok (successResult accountId b now
                  "Account enable operation initiated after service recovery" (some "service_retry")))
        | .text _ => ([.wait se, .enableCall], .invalidSuccessBody)
      else
        ([.wait se, .enableCall], .thrown (unrecoverableError accountId e))
    else
      ([], .thrown (unrecoverableError accountId e))

/-- The error handler of the first `script.mjs` variant (lines 153-158) and
of the bundled `dist/index.js` (lines 302-307): it rethrows the incoming
error unchanged and does nothing else. -/
def errorHandlerPassthrough (e : JsError) : List Event × HandlerOutcome :=
  ([], .thrown e)

/-! ## The halt handler -/

/-- The cleanup report returned by `halt` (src/script.mjs lines 401-406). -/
structure HaltResult where
  accountId : String
  reason : Option String
  haltedAt : String
  cleanupCompleted : Bool
deriving DecidableEq

/-- The `halt` handler (src/script.mjs lines 394-407, identical in both
variants and in `dist/index.js`): returns
`{accountId: accountId || 'unknown', reason, haltedAt: now,
cleanupCompleted: true}`.  The JavaScript body contains no throwing
operation and no network call, so the embedding is a total function with an
empty event trace. -/
def halt (accountId : Option String) (reason : Option String) (now : String) :
    List Event × HaltResult :=
  ([], { accountId := jsOrStr accountId "unknown"
         reason := reason
         haltedAt := now
         cleanupCompleted := true })

/-! ## Helper lemmas -/

theorem string_data_append (s t : String) : (s ++ t).data = s.data ++ t.data :=
  String.data_append s t

theorem isPrefixOf_append_self (l r : List Char) : l.isPrefixOf (l ++ r) = true := by
  induction l with
  | nil => simp [List.isPrefixOf]
  | cons c tl ih => simp [List.isPrefixOf, ih]

/-! ## Claim C5 -/

/-- Claim C5: the outgoing JSON body contains the `externalVerificationId`
key iff that input is truthy (non-empty), and contains the
`forceProvisioning` key iff that input is neither `undefined` nor `null`;
in particular `forceProvisioning = false` yields the key with value `false`
and an absent input yields a body with the key omitted, never defaulted. -/
theorem requestBody_conditional_keys (evi : Option String) (fp : Option Bool) :
    ((buildRequestBody evi fp).externalVerificationId ≠ none ↔ optTruthy evi = true) ∧
    ((buildRequestBody evi fp).externalVerificationId ≠ none →
      (buildRequestBody evi fp).externalVerificationId = evi) ∧
    ((buildRequestBody evi fp).forceProvisioning ≠ none ↔ fp ≠ none) ∧
    (buildRequestBody evi (some false)).forceProvisioning = some false ∧
    (buildRequestBody evi none).forceProvisioning = none := by
  refine ⟨?_, ?_, ?_, rfl, rfl⟩
  · unfold buildRequestBody optTruthy
    cases evi with
    | none => simp
    | some s => by_cases h : s = "" <;> simp [h]
  · unfold buildRequestBody
    by_cases h : optTruthy evi = true <;> simp [h]
  · simp [buildRequestBody]

/-- Witness for `requestBody_conditional_keys` at a concrete input. -/
theorem requestBody_conditional_keys_witness :
    (buildRequestBody (some "ext456") (some true)).externalVerificationId ≠ none ∧
    (buildRequestBody (some "ext456") (some true)).externalVerificationId = some "ext456" :=
  ⟨(requestBody_conditional_keys (some "ext456") (some true)).1.mpr (by decide),
   (requestBody_conditional_keys (some "ext456") (some true)).2.1
     ((requestBody_conditional_keys (some "ext456") (some true)).1.mpr (by decide))⟩

/-! ## Claim C8 -/

/-- Claim C8 counterexample: for the input token `"Bearer Bearer x"` the
header sent is the token itself, which carries the `Bearer ` prefix twice —
so "the header carries the prefix exactly once, never doubled" fails as a
universal statement over input tokens. -/
theorem bearer_double_prefix_cex :
    normalizeAuthHeader "Bearer Bearer x" = "Bearer Bearer x" ∧
    bearerExactlyOnce (normalizeAuthHeader "Bearer Bearer x") = false := by
  constructor <;> decide

/-- Claim C8 (amended): the Authorization header equals the token when it
already starts with `Bearer `, and `Bearer ` prepended to it otherwise; the
normalization is idempotent and its output always starts with `Bearer `;
and for every token that does not already start with `Bearer `, the header
carries the prefix exactly once. -/
theorem bearer_normalization (t : String) :
    normalizeAuthHeader t = (if strStartsWith t "Bearer " then t else "Bearer " ++ t) ∧
    normalizeAuthHeader (normalizeAuthHeader t) = normalizeAuthHeader t ∧
    strStartsWith (normalizeAuthHeader t) "Bearer " = true ∧
    (strStartsWith t "Bearer " = false → bearerExactlyOnce (normalizeAuthHeader t) = true) := by
  have hpre : strStartsWith ("Bearer " ++ t) "Bearer " = true := by
    unfold strStartsWith
    rw [string_data_append]
    exact isPrefixOf_append_self _ _
  by_cases h : strStartsWith t "Bearer " = true
  · refine ⟨by simp [normalizeAuthHeader, h], by simp [normalizeAuthHeader, h], ?_, ?_⟩
    · simp [normalizeAuthHeader, h]
    · intro hfalse
      rw [h] at hfalse
      exact absurd hfalse (by simp)
  · have h' : strStartsWith t "Bearer " = false := by
      cases hv : strStartsWith t "Bearer " with
      | true => exact absurd hv h
      | false => rfl
    have hnorm : normalizeAuthHeader t = "Bearer " ++ t := by
      simp [normalizeAuthHeader, h']
    refine ⟨by simp [normalizeAuthHeader, h'], ?_, ?_, ?_⟩
    · rw [hnorm]
      simp [normalizeAuthHeader, hpre]
    · rw [hnorm]
      exact hpre
    · intro _
      rw [hnorm]
      unfold bearerExactlyOnce
      rw [string_data_append]
      have hlen : ("Bearer ".data ++ t.data).drop 7 = t.data := by
        have h7 : ("Bearer ".data).length = 7 := by decide
        rw [← h7]
        exact List.drop_left _ _
      rw [hlen, isPrefixOf_append_self]
      have : "Bearer ".data.isPrefixOf t.data = false := h'
      rw [this]
      rfl

/-- Witness for `bearer_normalization` at a concrete input. -/
theorem bearer_normalization_witness :
    strStartsWith "tok123" "Bearer " = false ∧
    bearerExactlyOnce (normalizeAuthHeader "tok123") = true :=
  ⟨by decide, (bearer_normalization "tok123").2.2.2 (by decide)⟩

/-! ## Claim C9 -/

/-- Claim C9 counterexample: when the supplied `accountId` is the empty
string, the halt report's `accountId` is the literal `"unknown"`, not the
supplied (empty) identifier. -/
theorem halt_empty_accountId_cex :
    (halt (some "") (some "shutdown") "2026-01-01T00:00:00Z").2.accountId = "unknown" ∧
    (halt (some "") (some "shutdown") "2026-01-01T00:00:00Z").2.accountId ≠ "" := by
  constructor <;> decide

/-- Claim C9 (amended): the halt handler always succeeds (its embedding is a
total function: the source contains no throwing operation), makes no network
call, and returns the supplied reason verbatim, the current timestamp, and
`cleanupCompleted: true`; the reported `accountId` is the supplied one when
it is a non-empty string and the literal `"unknown"` when it is absent or
empty. -/
theorem halt_report (accountId : Option String) (reason : Option String) (now : String) :
    (halt accountId reason now).1 = [] ∧
    netCalls (halt accountId reason now).1 = 0 ∧
    (halt accountId reason now).2.reason = reason ∧
    (halt accountId reason now).2.haltedAt = now ∧
    (halt accountId reason now).2.cleanupCompleted = true ∧
    (∀ s : String, accountId = some s → s ≠ "" → (halt accountId reason now).2.accountId = s) ∧
    (accountId = none ∨ accountId = some "" → (halt accountId reason now).2.accountId = "unknown") := by
  refine ⟨rfl, rfl, rfl, rfl, rfl, ?_, ?_⟩
  · intro s hs hne
    subst hs
    simp [halt, jsOrStr, hne]
  · intro h
    rcases h with h | h <;> subst h <;> rfl

/-- Witness for `halt_report` at a concrete input. -/
theorem halt_report_witness :
    (halt (some "acc123") (some "timeout") "2026-01-01T00:00:00Z").2.accountId = "acc123" :=
  (halt_report (some "acc123") (some "timeout") "2026-01-01T00:00:00Z").2.2.2.2.2.1
    "acc123" rfl (by decide)

/-! ## Claim C10 -/

/-- Claim C10: in the bundled build (dist/index.js lines 302-307) and the
utils-based source variant (first variant of src/script.mjs, lines 153-158),
the error entry point rethrows the incoming error unchanged: no backoff
wait, no network call, and never a recovery success. -/
theorem error_passthrough_rethrows (e : JsError) :
    errorHandlerPassthrough e = ([], .thrown e) ∧
    netCalls (errorHandlerPassthrough e).1 = 0 ∧
    (∀ r : EnableResult, (errorHandlerPassthrough e).2 ≠ .ok r) := by
  refine ⟨rfl, rfl, ?_⟩
  intro r h
  simp [errorHandlerPassthrough] at h

/-! ## Claim C3 -/

/-- Claim C3: an error with statusCode 400, 401, 403 or 404 whose message
does not contain "429" or "rate limit" makes the recovery handler throw the
`Unrecoverable error enabling account` error immediately: the event trace is
empty (no backoff wait, no network call). -/
theorem fatal_status_no_retry (a now : String) (e : JsError) (rl se : Nat)
    (r1 r2 : Response)
    (hsc : e.statusCode = some 400 ∨ e.statusCode = some 401 ∨
           e.statusCode = some 403 ∨ e.statusCode = some 404)
    (h429 : strContains e.message "429" = false)
    (hrlmsg : strContains e.message "rate limit" = false) :
    errorHandler a e rl se r1 r2 now = ([], .thrown (unrecoverableError a e)) := by
  have hrl : rateLimitCond e = false := by
    unfold rateLimitCond
    rcases hsc with h | h | h | h <;> simp [h, h429, hrlmsg]
  have hse : serviceErrorCond e.statusCode = false := by
    unfold serviceErrorCond
    rcases hsc with h | h | h | h <;> simp [h]
  unfold errorHandler
  simp [hrl, hse]

/-- Witness for `fatal_status_no_retry` at a concrete input: a 401 error. -/
theorem fatal_status_no_retry_witness :
    errorHandler "acc123" ⟨"Authentication failed", some 401⟩ 30000 10000
        ⟨false, 500, .text ""⟩ ⟨false, 500, .text ""⟩ "2026-01-01T00:00:00Z"
      = ([], .thrown (unrecoverableError "acc123" ⟨"Authentication failed", some 401⟩)) :=
  fatal_status_no_retry "acc123" "2026-01-01T00:00:00Z" ⟨"Authentication failed", some 401⟩
    30000 10000 ⟨false, 500, .text ""⟩ ⟨false, 500, .text ""⟩
    (Or.inr (Or.inl rfl)) (by decide) (by decide)

/-! ## Claim C1 -/

/-- Claim C1 counterexample: for an error with statusCode 503 and message
"rate limit", the rate-limit branch fires on the textual match; when its
retry fails, control falls through to the service-error branch, which issues
a second retry.  With a failing first retry and a succeeding second one, the
handler returns a recovery success instead of raising, and two enable
requests are sent in one recovery invocation — refuting "at most one retry
request is sent" and "if the retried request also fails, the handler raises". -/
theorem errorHandler_double_retry_cex :
    netCalls (errorHandler "acc123" ⟨"rate limit", some 503⟩ 30000 10000
        ⟨false, 503, .text ""⟩
        ⟨true, 202, .json ⟨some "task9", none, none, none, none⟩⟩ "t0").1 = 2 ∧
    ¬ netCalls (errorHandler "acc123" ⟨"rate limit", some 503⟩ 30000 10000
        ⟨false, 503, .text ""⟩
        ⟨true, 202, .json ⟨some "task9", none, none, none, none⟩⟩ "t0").1 ≤ 1 ∧
    (errorHandler "acc123" ⟨"rate limit", some 503⟩ 30000 10000
        ⟨false, 503, .text ""⟩
        ⟨true, 202, .json ⟨some "task9", none, none, none, none⟩⟩ "t0").2
      = .ok ⟨"acc123", true, some "task9",
            "Account enable operation initiated after service recovery", "t0",
            some "service_retry"⟩ ∧
    (errorHandler "acc123" ⟨"rate limit", some 503⟩ 30000 10000
        ⟨false, 503, .text ""⟩
        ⟨true, 202, .json ⟨some "task9", none, none, none, none⟩⟩ "t0").2
      ≠ .thrown (unrecoverableError "acc123" ⟨"rate limit", some 503⟩) := by
  refine ⟨by decide, by decide, by decide, by decide⟩

/-- Claim C1 (amended): across one recovery invocation at most two enable
requests are ever sent (never a third); if every retry the handler issues
fails, it raises exactly
`"Unrecoverable error enabling account {accountId}: {original message}"`;
and when the error does not satisfy both the rate-limit condition and a
service-error statusCode (502/503/504) simultaneously, at most one retry is
sent and a failing retry always leads to that error being raised. -/
theorem errorHandler_bounded_retry (a now : String) (e : JsError) (rl se : Nat)
    (r1 r2 : Response) :
    netCalls (errorHandler a e rl se r1 r2 now).1 ≤ 2 ∧
    (r1.ok = false → r2.ok = false →
      (errorHandler a e rl se r1 r2 now).2 = .thrown (unrecoverableError a e)) ∧
    (¬(rateLimitCond e = true ∧ serviceErrorCond e.statusCode = true) →
      netCalls (errorHandler a e rl se r1 r2 now).1 ≤ 1 ∧
      (r1.ok = false →
        (errorHandler a e rl se r1 r2 now).2 = .thrown (unrecoverableError a e))) := by
  obtain ⟨ok1, st1, b1⟩ := r1
  obtain ⟨ok2, st2, b2⟩ := r2
  unfold errorHandler
  cases hrl : rateLimitCond e <;> cases hse : serviceErrorCond e.statusCode <;>
    cases ok1 <;> cases ok2 <;> cases b1 <;> cases b2 <;>
      simp_all [netCalls, List.countP_cons, isEnableCall]

/-- Witness for `errorHandler_bounded_retry` at a concrete input: a plain
500 failure whose retry (were one issued) fails. -/
theorem errorHandler_bounded_retry_witness :
    (errorHandler "acc123" ⟨"Server exploded", some 500⟩ 30000 10000
        ⟨false, 500, .text "boom"⟩ ⟨false, 500, .text "boom"⟩ "t0").2
      = .thrown (unrecoverableError "acc123" ⟨"Server exploded", some 500⟩) :=
  ((errorHandler_bounded_retry "acc123" "t0" ⟨"Server exploded", some 500⟩ 30000 10000
      ⟨false, 500, .text "boom"⟩ ⟨false, 500, .text "boom"⟩).2.2 (by decide)).2 rfl

/-! ## Claim C2 -/

/-- Claim C2 counterexample.  First input: statusCode 503 with message
"rate limit" — the spec-side condition classifies it ServiceError-retryable
only, but the code's condition matches and the handler performs the
rate-limit backoff (30000 ms, not 10000 ms) first.  Second input: no
statusCode, message "RATE LIMIT exceeded" — the spec-side case-insensitive
fallback matches, but the code's case-sensitive `includes` does not, and the
handler performs no backoff and no retry at all. -/
theorem rateLimit_classification_cex :
    specRateLimitCond ⟨"rate limit", some 503⟩ = false ∧
    rateLimitCond ⟨"rate limit", some 503⟩ = true ∧
    (errorHandler "acc123" ⟨"rate limit", some 503⟩ 30000 10000
        ⟨false, 503, .text ""⟩ ⟨false, 503, .text ""⟩ "t0").1.head?
      = some (.wait 30000) ∧
    specRateLimitCond ⟨"RATE LIMIT exceeded", none⟩ = true ∧
    rateLimitCond ⟨"RATE LIMIT exceeded", none⟩ = false ∧
    (errorHandler "acc123" ⟨"RATE LIMIT exceeded", none⟩ 30000 10000
        ⟨true, 202, .json ⟨some "t", none, none, none, none⟩⟩
        ⟨true, 202, .json ⟨some "t", none, none, none, none⟩⟩ "t0").1 = [] := by
  refine ⟨by decide, by decide, by decide, by decide, by decide, by decide⟩

/-- Claim C2 (amended): the recovery handler takes the rate-limit path
(waiting the rate-limit backoff first) exactly when the error's statusCode
is 429 or its message contains "429" or "rate limit" as a case-sensitive
substring — regardless of whether a statusCode is present; when it does not
take that path, it waits the service-error backoff first exactly when the
statusCode is 502, 503 or 504. -/
theorem rateLimit_classification (a now : String) (e : JsError) (rl se : Nat)
    (r1 r2 : Response) (hne : rl ≠ se) :
    ((errorHandler a e rl se r1 r2 now).1.head? = some (.wait rl) ↔
      (e.statusCode == some 429 || strContains e.message "429" ||
        strContains e.message "rate limit") = true) ∧
    (rateLimitCond e = false →
      ((errorHandler a e rl se r1 r2 now).1.head? = some (.wait se) ↔
        serviceErrorCond e.statusCode = true)) := by
  obtain ⟨ok1, st1, b1⟩ := r1
  obtain ⟨ok2, st2, b2⟩ := r2
  unfold errorHandler rateLimitCond
  cases hrl : (e.statusCode == some 429 || strContains e.message "429" ||
      strContains e.message "rate limit") <;>
    cases hse : serviceErrorCond e.statusCode <;>
      cases ok1 <;> cases ok2 <;> cases b1 <;> cases b2 <;>
        simp_all [hne]
  all_goals omega

/-- Witness for `rateLimit_classification` at a concrete input: a 429 error
makes the handler wait the rate-limit backoff first. -/
theorem rateLimit_classification_witness :
    (errorHandler "acc123" ⟨"HTTP 429", some 429⟩ 30000 10000
        ⟨true, 202, .json ⟨some "t", none, none, none, none⟩⟩
        ⟨true, 202, .json ⟨some "t", none, none, none, none⟩⟩ "t0").1.head?
      = some (.wait 30000) :=
  ((rateLimit_classification "acc123" "t0" ⟨"HTTP 429", some 429⟩ 30000 10000
      ⟨true, 202, .json ⟨some "t", none, none, none, none⟩⟩
      ⟨true, 202, .json ⟨some "t", none, none, none, none⟩⟩ (by decide)).1).mpr (by decide)

/-! ## Claim C4 -/

theorem char_toNat_lt_unicode (c : Char) : c.toNat < 1114112 := by
  have h := c.valid
  unfold UInt32.isValidChar Nat.isValidChar at h
  rcases h with h | ⟨h1, h2⟩
  · have : c.toNat = c.val.toNat := rfl
    omega
  · have : c.toNat = c.val.toNat := rfl
    omega

theorem utf8Bytes_lt (n : Nat) (h : n < 1114112) : ∀ b ∈ utf8Bytes n, b < 256 := by
  intro b hb
  unfold utf8Bytes at hb
  by_cases h1 : n < 128
  · rw [if_pos h1] at hb
    simp at hb
    omega
  · rw [if_neg h1] at hb
    by_cases h2 : n < 2048
    · rw [if_pos h2] at hb
      simp at hb
      rcases hb with rfl | rfl <;> omega
    · rw [if_neg h2] at hb
      by_cases h3 : n < 65536
      · rw [if_pos h3] at hb
        simp at hb
        rcases hb with rfl | rfl | rfl <;> omega
      · rw [if_neg h3] at hb
        simp at hb
        rcases hb with rfl | rfl | rfl | rfl <;> omega

theorem mem_percentByte (b : Nat) (hb : b < 256) (c : Char) (hc : c ∈ percentByte b) :
    c = Char.ofNat 37 ∨ ∃ n, n < 16 ∧ c = hexDigitChar n := by
  unfold percentByte at hc
  simp at hc
  rcases hc with rfl | rfl | rfl
  · exact Or.inl rfl
  · exact Or.inr ⟨b / 16, by omega, rfl⟩
  · exact Or.inr ⟨b % 16, by omega, rfl⟩

theorem reserved_not_unescaped : ∀ c ∈ uriReserved, isUriUnescaped c.toNat = false := by
  decide

theorem reserved_ne_percent : ∀ c ∈ uriReserved, c ≠ Char.ofNat 37 := by
  decide

theorem reserved_ne_hexDigit : ∀ n < 16, ∀ c ∈ uriReserved, hexDigitChar n ≠ c := by
  decide

theorem reserved_not_mem_encodeChar (c d : Char) (hres : c ∈ uriReserved) :
    c ∉ encodeChar d := by
  intro hmem
  unfold encodeChar at hmem
  by_cases hd : isUriUnescaped d.toNat = true
  · rw [if_pos hd] at hmem
    simp at hmem
    subst hmem
    rw [reserved_not_unescaped c hres] at hd
    exact Bool.noConfusion hd
  · rw [if_neg hd] at hmem
    rw [List.mem_flatten] at hmem
    obtain ⟨l, hl, hcl⟩ := hmem
    rw [List.mem_map] at hl
    obtain ⟨b, hbmem, rfl⟩ := hl
    have hblt : b < 256 := utf8Bytes_lt d.toNat (char_toNat_lt_unicode d) b hbmem
    rcases mem_percentByte b hblt c hcl with h37 | ⟨n, hn, hhex⟩
    · exact reserved_ne_percent c hres h37
    · exact reserved_ne_hexDigit n hn c hres hhex.symm

theorem reserved_not_mem_encodeList (l : List Char) (c : Char) (hres : c ∈ uriReserved) :
    c ∉ encodeList l := by
  induction l with
  | nil => simp [encodeList]
  | cons d tl ih =>
      intro hmem
      unfold encodeList at hmem
      rw [List.mem_append] at hmem
      rcases hmem with h | h
      · exact reserved_not_mem_encodeChar c d hres h
      · exact ih h

/-- Claim C4: the account identifier embedded in the request path is
`encodeURIComponent` of the input; the request URL is the base address
followed by `/v3/accounts/{encoded id}/enable`; every ECMAScript reserved
character is encoded — each reserved character maps to its percent-escape
and never appears literally anywhere in the encoded identifier, for any
input — and the spec's example encodes as stated. -/
theorem enableUrl_percent_encoding (baseUrl accountId : String) :
    enableUrl baseUrl accountId
      = baseUrl ++ "/v3/accounts/" ++ encodeURIComponent accountId ++ "/enable" ∧
    (∀ c ∈ uriReserved, c ∉ (encodeURIComponent accountId).data) ∧
    (∀ c ∈ uriReserved, encodeChar c = percentByte c.toNat) ∧
    encodeURIComponent "acc/123&test=1" = "acc%2F123%26test%3D1" := by
  refine ⟨rfl, ?_, by decide, by decide⟩
  intro c hc
  exact reserved_not_mem_encodeList accountId.data c hc

/-- Witness for `enableUrl_percent_encoding` at a concrete input: the
forward slash is reserved and does not survive into the encoded id. -/
theorem enableUrl_percent_encoding_witness :
    ('/' ∈ uriReserved) ∧ '/' ∉ (encodeURIComponent "acc/123&test=1").data :=
  ⟨by decide,
   (enableUrl_percent_encoding "https://example.api.identitynow.com" "acc/123&test=1").2.1
     '/' (by decide)⟩

/-! ## Claim C6 -/

/-- Claim C6 counterexample: a 404 response whose JSON body carries a
`detailCode` field holding the empty string and a `message` field `"boom"`.
The claim (detailCode field present takes precedence) demands the message
`"Failed to enable account:  - "`, but the code's truthiness test skips the
empty `detailCode` and uses the `message` field instead. -/
theorem failureMessage_empty_detailCode_cex :
    failureMessage 404 (.json ⟨none, none, some "boom", some "", none⟩)
      = "Failed to enable account: boom" ∧
    failureMessage 404 (.json ⟨none, none, some "boom", some "", none⟩)
      ≠ "Failed to enable account:  - " := by
  constructor <;> decide

/-- Claim C6 (amended): for every unsuccessful response the raised error
message follows this precedence — a truthy (non-empty) `detailCode` yields
`"Failed to enable account: {detailCode} - {trackingId or empty}"`; else a
truthy (non-empty) `message` field yields
`"Failed to enable account: {message}"`; else, when the body is not JSON
and its raw text is non-empty, `"Failed to enable account: {text}"`;
otherwise `"Failed to enable account: HTTP {statusCode}"` — and the numeric
status code is attached to the raised error. -/
theorem failureMessage_precedence (status : Nat) (b : JsonBody) (t : String)
    (a now : String) (resp : Response) :
    (optTruthy b.detailCode = true →
      failureMessage status (.json b)
        = "Failed to enable account: " ++ b.detailCode.getD "" ++ " - " ++
            jsOrStr b.trackingId "") ∧
    (optTruthy b.detailCode = false → optTruthy b.message = true →
      failureMessage status (.json b)
        = "Failed to enable account: " ++ b.message.getD "") ∧
    (optTruthy b.detailCode = false → optTruthy b.message = false →
      failureMessage status (.json b)
        = "Failed to enable account: HTTP " ++ toString status) ∧
    (t ≠ "" → failureMessage status (.text t) = "Failed to enable account: " ++ t) ∧
    (failureMessage status (.text "") = "Failed to enable account: HTTP " ++ toString status) ∧
    (resp.ok = false →
      handleResponse a now resp
        = .thrown ⟨failureMessage resp.status resp.body, some resp.status⟩) := by
  refine ⟨?_, ?_, ?_, ?_, rfl, ?_⟩
  · intro hdc
    simp [failureMessage, hdc]
  · intro hdc hm
    simp [failureMessage, hdc, hm]
  · intro hdc hm
    simp [failureMessage, hdc, hm]
  · intro ht
    simp [failureMessage, ht]
  · intro hok
    simp [handleResponse, hok]

/-- Witness for `failureMessage_precedence` at a concrete input: the spec's
404 example with `detailCode: "NOT_FOUND"` and `trackingId: "track123"`. -/
theorem failureMessage_precedence_witness :
    failureMessage 404 (.json ⟨none, none, none, some "NOT_FOUND", some "track123"⟩)
      = "Failed to enable account: NOT_FOUND - track123" :=
  ((failureMessage_precedence 404 ⟨none, none, none, some "NOT_FOUND", some "track123"⟩
      "x" "a" "t" ⟨false, 404, .text ""⟩).1 (by decide)).trans (by decide)

/-! ## Claim C7 -/

/-- Claim C7 counterexample: a success body with `id: ""`, `taskId: "task9"`
and `message: ""`.  The `id` field is present (not absent), so the claim
demands `taskId = ""` and `message = ""`; the code's `||` falls back on the
falsy empty strings, returning `taskId = "task9"` and the default literal. -/
theorem success_result_falsy_id_cex :
    handleResponse "acc123" "t0" ⟨true, 202, .json ⟨some "", some "task9", some "", none, none⟩⟩
      = .ok ⟨"acc123", true, some "task9", "Account enable operation initiated", "t0", none⟩ ∧
    (some "task9" : Option String) ≠ some "" ∧
    ("Account enable operation initiated" : String) ≠ "" := by
  refine ⟨by decide, by decide, by decide⟩

/-- Claim C7 (amended): for every successful response with a JSON body the
result carries `enabled: true`, the input accountId, `taskId` equal to the
body's `id` field when that field is truthy (non-empty) and the body's
`taskId` field otherwise, and `message` equal to the body's `message` field
when truthy and the literal `"Account enable operation initiated"`
otherwise. -/
theorem success_result_fields (a now : String) (s : Nat) (b : JsonBody) :
    ∃ r : EnableResult,
      handleResponse a now ⟨true, s, .json b⟩ = .ok r ∧
      r.accountId = a ∧ r.enabled = true ∧ r.enabledAt = now ∧ r.recoveryMethod = none ∧
      (optTruthy b.id = true → r.taskId = b.id) ∧
      (optTruthy b.id = false → r.taskId = b.taskId) ∧
      (optTruthy b.message = true → some r.message = b.message) ∧
      (optTruthy b.message = false → r.message = "Account enable operation initiated") := by
  refine ⟨successResult a b now "Account enable operation initiated" none,
    rfl, rfl, rfl, rfl, rfl, ?_, ?_, ?_, ?_⟩
  · intro h
    simp [successResult, jsOr, h]
  · intro h
    simp [successResult, jsOr, h]
  · intro h
    cases hm : b.message with
    | none => rw [hm] at h; exact absurd h (by simp [optTruthy])
    | some m =>
        rw [hm] at h
        have hne : (m == "") = false := by
          cases hmv : (m == "") with
          | true => rw [optTruthy, hmv] at h; exact absurd h (by simp)
          | false => rfl
        simp [successResult, jsOrStr, hm, hne]
  · intro h
    cases hm : b.message with
    | none => simp [successResult, jsOrStr, hm]
    | some m =>
        rw [hm] at h
        have hme : (m == "") = true := by
          cases hmv : (m == "") with
          | true => rfl
          | false => rw [optTruthy, hmv] at h; exact absurd h (by simp)
        simp [successResult, jsOrStr, hm, hme]

/-- Witness for `success_result_fields` at a concrete input: the spec's
example body `{id: "task789", message: "All good"}`. -/
theorem success_result_fields_witness :
    ∃ r : EnableResult,
      handleResponse "acc123" "t0"
          ⟨true, 202, .json ⟨some "task789", none, some "All good", none, none⟩⟩ = .ok r ∧
      r.taskId = some "task789" ∧ r.message = "All good" := by
  obtain ⟨r, h1, _, _, _, _, h6, _, h8, _⟩ :=
    success_result_fields "acc123" "t0" 202 ⟨some "task789", none, some "All good", none, none⟩
  exact ⟨r, h1, h6 (by decide), Option.some.inj (h8 (by decide))⟩

/-- Witness for `error_passthrough_rethrows` at a concrete input. -/
theorem error_passthrough_rethrows_witness :
    errorHandlerPassthrough ⟨"HTTP 429", some 429⟩ = ([], .thrown ⟨"HTTP 429", some 429⟩) :=
  (error_passthrough_rethrows ⟨"HTTP 429", some 429⟩).1
